import Mathlib

/-!
Verification of the retrieval-and-synthesis pipeline of this repository
(router → partition-filtered retriever → citation synthesizer).

The embedding follows the Python sources:
  * `src/src/schemas/models.py`   — data model (`DocumentType`, `RetrievedChunk`,
    `Citation`, `AnswerWithCitations`, `GraphState`);
  * `src/src/retrieval/vector_store.py` — `retrieve_chunks`, `load_vector_store`;
  * `src/src/graph/nodes.py`      — `router_node`, `create_retrieval_node`,
    `synthesis_node`;
  * `src/src/graph/workflow.py`   — the linear graph and `run_query`;
  * `src/src/ingestion/pdf_loader.py` — `classify_document_type`,
    `extract_text_from_pdf`;
  * `src/src/ingestion/chunker.py` — `chunk_documents`.

External collaborators (the Chroma search engine and the two language-model
calls) are modelled as parameters, with a concrete model `mkChroma` of the
engine's documented pre-filter/top-k contract.  Scores (float distances) are
modelled as rationals: the code only ever compares them.  Python's `sorted`
is a stable ascending sort, hence extensionally equal to `List.insertionSort`
with the non-strict comparison on the sort key.
-/

namespace Rag

/-- `DocumentType` from `src/src/schemas/models.py`. -/
inductive DocumentType where
  | forecast
  | midyear
  | both
deriving DecidableEq, Repr

/-- The metadata dictionary attached to a LangChain `Document`.  Only the keys
this repository reads or writes are modelled; `none` models an absent key. -/
structure Metadata where
  source : Option String := none
  document : Option String := none
  doc_type : Option String := none
  page : Option Int := none
  total_pages : Option Nat := none
  chunk_index : Option Nat := none
  total_chunks_in_page : Option Nat := none
deriving DecidableEq, Repr

/-- A LangChain `Document`: text plus metadata. -/
structure Document where
  page_content : String
  metadata : Metadata
deriving DecidableEq, Repr

/-- `RetrievedChunk` from `src/src/schemas/models.py`. -/
structure RetrievedChunk where
  content : String
  document : String
  page : Int
  score : ℚ
deriving DecidableEq, Repr

/-- `Citation` from `src/src/schemas/models.py`. -/
structure Citation where
  document : String
  page : Int
  text : String
deriving DecidableEq, Repr

/-- `AnswerWithCitations` from `src/src/schemas/models.py`. -/
structure AnswerWithCitations where
  answer : String
  citations : List Citation
deriving DecidableEq, Repr

/-- `RouterDecision` from `src/src/schemas/models.py`. -/
structure RouterDecision where
  document_type : DocumentType
  reasoning : String
deriving DecidableEq, Repr

/-- `GraphState` from `src/src/schemas/models.py`, with the pydantic
defaults of the optional fields. -/
structure GraphState where
  question : String
  document_type : Option DocumentType := none
  routing_reasoning : String := ""
  retrieved_chunks : List RetrievedChunk := []
  answer : Option AnswerWithCitations := none
deriving DecidableEq, Repr

/-- `settings.top_k` from `src/src/config.py` (default 5). -/
def settings_top_k : Nat := 5

/-- `k = top_k or settings.top_k` in `retrieve_chunks`: Python `or` falls back
to the default when `top_k` is `None` or `0` (falsy). -/
def effectiveK : Option Nat → Nat
  | none => settings_top_k
  | some n => if n = 0 then settings_top_k else n

/-- Abstract handle to a Chroma collection.  `similarity_search_with_score`
receives the query, the result budget `k`, and an optional `doc_type`
equality filter (`some t` models the dictionary
`\x7b"doc_type": \x7b"$eq": t\x7d\x7d`, `none` models no filter), and returns
scored documents. -/
structure Chroma where
  similarity_search_with_score : String → Nat → Option String → List (Document × ℚ)

/-- Comparison used by the merge in the `BOTH` branch: ascending distance
(`sorted(results, key=lambda x: x[1])`). -/
def scoreLE (a b : Document × ℚ) : Prop := a.2 ≤ b.2

instance : DecidableRel scoreLE := fun a b => inferInstanceAs (Decidable (a.2 ≤ b.2))

instance : IsTotal (Document × ℚ) scoreLE := ⟨fun a b => le_total a.2 b.2⟩

instance : IsTrans (Document × ℚ) scoreLE := ⟨fun _ _ _ hab hbc => le_trans hab hbc⟩

/-- The conversion of one scored search result into a `RetrievedChunk`
(`src/src/retrieval/vector_store.py` lines 112–120): absent `document`
metadata defaults to `"unknown"`, absent `page` metadata defaults to `0`. -/
def toRetrievedChunk (p : Document × ℚ) : RetrievedChunk :=
  { content := p.1.page_content
    document := p.1.metadata.document.getD "unknown"
    page := p.1.metadata.page.getD 0
    score := p.2 }

/-- `retrieve_chunks` from `src/src/retrieval/vector_store.py`.  The
`document_type` argument is `Optional` because `GraphState.document_type`
is nullable and is passed through unchanged; the final `else` of the Python
chain handles `None`.  Python's stable `sorted` is embedded as
`List.insertionSort scoreLE`, and `[: k * 2]` as `List.take (k * 2)`. -/
def retrieve_chunks (vector_store : Chroma) (query : String)
    (document_type : Option DocumentType) (top_k : Option Nat) : List RetrievedChunk :=
  let k := effectiveK top_k
  let results : List (Document × ℚ) :=
    match document_type with
    | some .both =>
        let results_forecast := vector_store.similarity_search_with_score query k (some "forecast")
        let results_midyear := vector_store.similarity_search_with_score query k (some "midyear")
        (List.insertionSort scoreLE (results_forecast ++ results_midyear)).take (k * 2)
    | some .forecast => vector_store.similarity_search_with_score query k (some "forecast")
    | some .midyear => vector_store.similarity_search_with_score query k (some "midyear")
    | none => vector_store.similarity_search_with_score query k none
  results.map toRetrievedChunk

/-- Whether a document passes a `doc_type` equality filter (`none` = no
filter, everything passes). -/
def matchesFilter (flt : Option String) (d : Document) : Bool :=
  match flt with
  | none => true
  | some t => d.metadata.doc_type == some t

/-- Model of the Chroma engine honouring its documented contract (spec §4.1,
and the engine this repository delegates to): the partition filter is a
pre-filter, results are ordered by ascending distance, and at most `k`
results are returned from the filtered subset.  `scored` gives the stored
corpus together with each document's distance to the query. -/
def mkChroma (scored : String → List (Document × ℚ)) : Chroma :=
  { similarity_search_with_score := fun query k flt =>
      (List.insertionSort scoreLE ((scored query).filter (fun p => matchesFilter flt p.1))).take k }

/-- `load_vector_store` from `src/src/retrieval/vector_store.py`.  The
function unconditionally constructs a `Chroma` handle; the underlying
client opens the persisted collection when one exists and otherwise
creates a fresh empty collection (get-or-create semantics of the
`langchain_chroma` constructor).  No availability check is performed. -/
def load_vector_store (persisted : Option (String → List (Document × ℚ))) : Chroma :=
  mkChroma (persisted.getD (fun _ => []))

/-!  The LangGraph pipeline (`src/src/graph/nodes.py`, `src/src/graph/workflow.py`).
Each node returns a partial update (a Python dict naming only some state
fields); LangGraph merges it into the shared `GraphState`.  The two
language-model calls are opaque collaborators, passed in as functions. -/

/-- A partial state update as returned by a node: `some v` models a dict entry
for that field, `none` models an absent key. -/
structure PartialUpdate where
  question : Option String := none
  document_type : Option (Option DocumentType) := none
  routing_reasoning : Option String := none
  retrieved_chunks : Option (List RetrievedChunk) := none
  answer : Option (Option AnswerWithCitations) := none
deriving DecidableEq, Repr

/-- LangGraph's merge of a node's returned dict into the state: fields named
by the update are overwritten, all others keep their current value. -/
def applyUpdate (s : GraphState) (u : PartialUpdate) : GraphState :=
  { question := u.question.getD s.question
    document_type := u.document_type.getD s.document_type
    routing_reasoning := u.routing_reasoning.getD s.routing_reasoning
    retrieved_chunks := u.retrieved_chunks.getD s.retrieved_chunks
    answer := u.answer.getD s.answer }

/-- The two language-model collaborators: `route` models the structured-output
classification call of the router (a function of the question), `synthesize`
models the free-text call of the synthesizer (a function of the assembled
context block and the question). -/
structure LLM where
  route : String → RouterDecision
  synthesize : String → String → String

/-- `router_node` from `src/src/graph/nodes.py`: returns a dict with exactly
the keys `document_type` and `routing_reasoning`. -/
def router_node (llm : LLM) (state : GraphState) : PartialUpdate :=
  let decision := llm.route state.question
  { document_type := some (some decision.document_type)
    routing_reasoning := some decision.reasoning }

/-- The node produced by `create_retrieval_node` in `src/src/graph/nodes.py`:
returns a dict with exactly the key `retrieved_chunks`, calling
`retrieve_chunks` with `top_k=settings.top_k`. -/
def create_retrieval_node (vector_store : Chroma) (state : GraphState) : PartialUpdate :=
  { retrieved_chunks :=
      some (retrieve_chunks vector_store state.question state.document_type (some settings_top_k)) }

/-- The per-chunk citation built in `synthesis_node`
(`src/src/graph/nodes.py` lines 114–125): content truncated to its first
200 characters with `"..."` appended when longer than 200, verbatim
otherwise. -/
def citationOfChunk (chunk : RetrievedChunk) : Citation :=
  { document := chunk.document
    page := chunk.page
    text :=
      if 200 < chunk.content.length then chunk.content.take 200 ++ "..."
      else chunk.content }

/-- The context block assembled in `synthesis_node`: each chunk rendered as
`[document, Page page]` followed by its content, joined by `\n---\n`. -/
def contextOfChunks (chunks : List RetrievedChunk) : String :=
  String.intercalate "\n---\n"
    (chunks.map (fun chunk =>
      let d := chunk.document
      let p := toString chunk.page
      let c := chunk.content
      "[" ++ d ++ ", Page " ++ p ++ "]\n" ++ c ++ "\n"))

/-- `synthesis_node` from `src/src/graph/nodes.py`: invokes the free-text
model on the context and question, derives one citation per retrieved chunk,
and returns a dict with exactly the key `answer`. -/
def synthesis_node (llm : LLM) (state : GraphState) : PartialUpdate :=
  let answer_text := llm.synthesize (contextOfChunks state.retrieved_chunks) state.question
  { answer := some (some
      { answer := answer_text
        citations := state.retrieved_chunks.map citationOfChunk }) }

/-- `run_query` over the graph built by `build_rag_graph`
(`src/src/graph/workflow.py`): seed the state with the question only, then
apply router, retrieval and synthesis in that fixed linear order, merging
each node's partial update. -/
def run_query (llm : LLM) (vector_store : Chroma) (question : String) : GraphState :=
  let s0 : GraphState := { question := question }
  let s1 := applyUpdate s0 (router_node llm s0)
  let s2 := applyUpdate s1 (create_retrieval_node vector_store s1)
  applyUpdate s2 (synthesis_node llm s2)

/-!  Ingestion (`src/src/ingestion/pdf_loader.py`, `src/src/ingestion/chunker.py`).
The PDF engine is modelled by the list of its pages' extracted texts; the
two LangChain splitters are opaque collaborators passed in as functions. -/

/-- Substring test (Python's `needle in hay`). -/
def containsSub (hay needle : String) : Bool :=
  (hay.splitOn needle).length != 1

/-- `classify_document_type` from `src/src/ingestion/pdf_loader.py`. -/
def classify_document_type (doc_name : String) : String :=
  let doc_name_lower := doc_name.toLower
  if containsSub doc_name_lower "mid-year" || containsSub doc_name_lower "midyear" then
    "midyear"
  else
    "forecast"

/-- One page's `Document` as built in `extract_text_from_pdf`. -/
def pageDocument (pdf_path doc_name doc_type : String) (total_pages page_num : Nat)
    (text : String) : Document :=
  { page_content := text
    metadata :=
      { source := some pdf_path
        document := some doc_name
        doc_type := some doc_type
        page := some (page_num : Int)
        total_pages := some total_pages } }

/-- The page loop of `extract_text_from_pdf`: `enumerate(pdf, start=1)`,
keeping only pages whose text is non-blank (`if text.strip()`). -/
def extractPagesFrom (pdf_path doc_name doc_type : String) (total_pages : Nat) :
    Nat → List String → List Document
  | _, [] => []
  | page_num, text :: rest =>
      (if text.trim = "" then []
       else [pageDocument pdf_path doc_name doc_type total_pages page_num text]) ++
      extractPagesFrom pdf_path doc_name doc_type total_pages (page_num + 1) rest

/-- `extract_text_from_pdf` from `src/src/ingestion/pdf_loader.py`: the PDF is
modelled by its pages' texts; page numbering starts at 1. -/
def extract_text_from_pdf (pdf_path doc_name : String) (pages : List String) : List Document :=
  extractPagesFrom pdf_path doc_name (classify_document_type doc_name) pages.length 1 pages

/-- The chunk-metadata assignment loop of `chunk_documents`
(`for i, chunk in enumerate(chunks)`): sets `chunk_index` and
`total_chunks_in_page` on each chunk. -/
def assignChunkMetaFrom (total : Nat) : Nat → List Document → List Document
  | _, [] => []
  | i, chunk :: rest =>
      { chunk with metadata :=
          { chunk.metadata with chunk_index := some i, total_chunks_in_page := some total } } ::
      assignChunkMetaFrom total (i + 1) rest

/-- One iteration of the page loop of `chunk_documents`
(`src/src/ingestion/chunker.py`).  `create_documents` models the semantic
chunker applied to one page (it may raise, modelled by `Except`);
`split_documents` models the deterministic recursive character splitter.
With `use_semantic`, a page whose semantic chunking raises is re-chunked
with the recursive splitter (the `except` branch); either way the page's
chunks get `chunk_index` and `total_chunks_in_page` metadata. -/
def chunkOnePage (create_documents : Document → Except String (List Document))
    (split_documents : Document → List Document) (use_semantic : Bool)
    (doc : Document) : List Document :=
  let chunks :=
    if use_semantic then
      match create_documents doc with
      | .ok cs => cs
      | .error _ => split_documents doc
    else split_documents doc
  assignChunkMetaFrom chunks.length 0 chunks

/-- `chunk_documents` from `src/src/ingestion/chunker.py`: every page
contributes the chunks of `chunkOnePage`, accumulated in order
(`chunked_docs.append` in a loop over the pages). -/
def chunk_documents (create_documents : Document → Except String (List Document))
    (split_documents : Document → List Document)
    (documents : List Document) (use_semantic : Bool) : List Document :=
  documents.flatMap (chunkOnePage create_documents split_documents use_semantic)

/-!  Concrete sample data used by the witness theorems. -/

/-- A sample stored document. -/
def sampleDoc (dt : String) (pg : Int) (txt : String) : Document :=
  { page_content := txt
    metadata := { document := some ("doc-" ++ dt), doc_type := some dt, page := some pg } }

/-- A sample scored corpus: two forecast and two midyear chunks. -/
def sampleScored : String → List (Document × ℚ) := fun _ =>
  [(sampleDoc "forecast" 1 "alpha", 2),
   (sampleDoc "midyear" 2 "beta", 1),
   (sampleDoc "forecast" 3 "gamma", 1),
   (sampleDoc "midyear" 4 "delta", 3)]

/-- A sample store over `sampleScored`. -/
def sampleStore : Chroma := mkChroma sampleScored

/-!  Theorems. -/

/-- C1: for a `BOTH` selection with per-partition request size `k`,
`retrieve_chunks` returns the concatenation of the forecast-filtered and the
midyear-filtered search results, sorted ascending by distance by a stable
sort (every distance-sorted sublist of the concatenation — in particular any
equal-distance pair in concatenation order — survives as a sublist of the
sorted list), truncated to at most `2k` elements; the output is sorted
ascending by score and has length at most `2k`. -/
theorem retrieve_chunks_both_spec (vector_store : Chroma) (query : String) (top_k : Option Nat) :
    let k := effectiveK top_k
    let results_forecast := vector_store.similarity_search_with_score query k (some "forecast")
    let results_midyear := vector_store.similarity_search_with_score query k (some "midyear")
    let combined := results_forecast ++ results_midyear
    ∃ sortedCombined : List (Document × ℚ),
      combined.Perm sortedCombined ∧
      sortedCombined.Sorted scoreLE ∧
      (∀ c : List (Document × ℚ), c.Pairwise scoreLE → c.Sublist combined →
        c.Sublist sortedCombined) ∧
      retrieve_chunks vector_store query (some .both) top_k
        = (sortedCombined.take (k * 2)).map toRetrievedChunk ∧
      (retrieve_chunks vector_store query (some .both) top_k).length ≤ k * 2 ∧
      (retrieve_chunks vector_store query (some .both) top_k).Sorted
        (fun a b => a.score ≤ b.score) := by
  intro k results_forecast results_midyear combined
  refine ⟨List.insertionSort scoreLE combined, ?_, ?_, ?_, ?_, ?_, ?_⟩
  · exact (List.perm_insertionSort scoreLE combined).symm
  · exact List.sorted_insertionSort scoreLE combined
  · exact fun c hp hs => List.sublist_insertionSort hp hs
  · rfl
  · simp [retrieve_chunks]
  · have hsorted : (List.insertionSort scoreLE combined).Pairwise scoreLE :=
      List.sorted_insertionSort scoreLE combined
    have htake : ((List.insertionSort scoreLE combined).take (k * 2)).Pairwise scoreLE :=
      hsorted.sublist (List.take_sublist _ _)
    exact htake.map toRetrievedChunk (fun a b h => h)

/-- Witness for C1: the bound and sortedness conjuncts at a concrete store. -/
theorem retrieve_chunks_both_spec_witness :
    (retrieve_chunks sampleStore "q" (some .both) (some 2)).length ≤ 2 * 2 ∧
    (retrieve_chunks sampleStore "q" (some .both) (some 2)).Sorted
      (fun a b => a.score ≤ b.score) := by
  obtain ⟨S, hperm, hsort, hstable, heq, hlen, hsorted⟩ :=
    retrieve_chunks_both_spec sampleStore "q" (some 2)
  exact ⟨hlen, hsorted⟩

/-- C10: when each per-partition search returns at most `k` results (as the
engine contract guarantees), the truncation to `2k` in the `BOTH` branch
discards nothing: the output is the whole sorted concatenation, and its
length is the sum of the two searches' result lengths. -/
theorem retrieve_chunks_both_no_truncation (vector_store : Chroma) (query : String)
    (top_k : Option Nat)
    (hF : (vector_store.similarity_search_with_score query (effectiveK top_k)
            (some "forecast")).length ≤ effectiveK top_k)
    (hM : (vector_store.similarity_search_with_score query (effectiveK top_k)
            (some "midyear")).length ≤ effectiveK top_k) :
    retrieve_chunks vector_store query (some .both) top_k
      = (List.insertionSort scoreLE
          (vector_store.similarity_search_with_score query (effectiveK top_k) (some "forecast")
            ++ vector_store.similarity_search_with_score query (effectiveK top_k)
                (some "midyear"))).map toRetrievedChunk ∧
    (retrieve_chunks vector_store query (some .both) top_k).length
      = (vector_store.similarity_search_with_score query (effectiveK top_k)
          (some "forecast")).length
        + (vector_store.similarity_search_with_score query (effectiveK top_k)
            (some "midyear")).length := by
  set k := effectiveK top_k with hk
  set F := vector_store.similarity_search_with_score query k (some "forecast") with hFdef
  set M := vector_store.similarity_search_with_score query k (some "midyear") with hMdef
  have hlen : (List.insertionSort scoreLE (F ++ M)).length ≤ k * 2 := by
    rw [(List.perm_insertionSort scoreLE (F ++ M)).length_eq, List.length_append]
    calc F.length + M.length ≤ k + k := Nat.add_le_add hF hM
      _ = k * 2 := (Nat.mul_two k).symm
  have htake : (List.insertionSort scoreLE (F ++ M)).take (k * 2)
      = List.insertionSort scoreLE (F ++ M) := List.take_of_length_le hlen
  constructor
  · show ((List.insertionSort scoreLE (F ++ M)).take (k * 2)).map toRetrievedChunk = _
    rw [htake]
  · show (((List.insertionSort scoreLE (F ++ M)).take (k * 2)).map toRetrievedChunk).length = _
    rw [htake, List.length_map, (List.perm_insertionSort scoreLE (F ++ M)).length_eq,
      List.length_append]

/-- Witness for C10 at a concrete store: both hypotheses hold and the output
length is the sum of the two searches' lengths. -/
theorem retrieve_chunks_both_no_truncation_witness :
    (retrieve_chunks sampleStore "q" (some .both) (some 2)).length
      = (sampleStore.similarity_search_with_score "q" 2 (some "forecast")).length
        + (sampleStore.similarity_search_with_score "q" 2 (some "midyear")).length :=
  (retrieve_chunks_both_no_truncation sampleStore "q" (some 2) (by decide) (by decide)).2

/-- C8: with no partition selection (unset `document_type`), the retriever
performs a single unfiltered similarity search and returns its top-`k`
results (the `k`-prefix of the whole corpus sorted by ascending distance,
no `doc_type` restriction), returning a list rather than failing. -/
theorem retrieve_chunks_none_unfiltered (scored : String → List (Document × ℚ))
    (query : String) (top_k : Option Nat) :
    retrieve_chunks (mkChroma scored) query none top_k
      = ((List.insertionSort scoreLE (scored query)).take (effectiveK top_k)).map
          toRetrievedChunk ∧
    (retrieve_chunks (mkChroma scored) query none top_k).length ≤ effectiveK top_k := by
  have hfilter : (scored query).filter (fun p => matchesFilter none p.1) = scored query := by
    simp [matchesFilter]
  constructor
  · show ((List.insertionSort scoreLE
        ((scored query).filter (fun p => matchesFilter none p.1))).take
          (effectiveK top_k)).map toRetrievedChunk = _
    rw [hfilter]
  · simp [retrieve_chunks, mkChroma]

/-- Every result of a filtered `mkChroma` search is a stored document whose
`doc_type` equals the requested label. -/
theorem mkChroma_search_mem {scored : String → List (Document × ℚ)} {query : String}
    {k : Nat} {t : String} {p : Document × ℚ}
    (hp : p ∈ (mkChroma scored).similarity_search_with_score query k (some t)) :
    p ∈ scored query ∧ p.1.metadata.doc_type = some t := by
  have h1 : p ∈ List.insertionSort scoreLE
      ((scored query).filter (fun q => matchesFilter (some t) q.1)) :=
    List.mem_of_mem_take hp
  rw [List.mem_insertionSort] at h1
  have h2 := List.mem_filter.mp h1
  refine ⟨h2.1, ?_⟩
  simpa [matchesFilter] using h2.2

/-- C4: partition purity — a `FORECAST`- (resp. `MIDYEAR`-) selected retrieval
issues a `doc_type` equality pre-filtered search, so every returned chunk
comes from a stored document tagged with exactly the requested partition
label; no chunk of the other partition can appear. -/
theorem retrieve_chunks_partition_purity (scored : String → List (Document × ℚ))
    (query : String) (top_k : Option Nat) :
    (∀ chunk ∈ retrieve_chunks (mkChroma scored) query (some .forecast) top_k,
      ∃ p ∈ scored query, p.1.metadata.doc_type = some "forecast" ∧
        chunk = toRetrievedChunk p) ∧
    (∀ chunk ∈ retrieve_chunks (mkChroma scored) query (some .midyear) top_k,
      ∃ p ∈ scored query, p.1.metadata.doc_type = some "midyear" ∧
        chunk = toRetrievedChunk p) := by
  constructor
  · intro chunk hc
    have hc2 : chunk ∈ ((mkChroma scored).similarity_search_with_score query
        (effectiveK top_k) (some "forecast")).map toRetrievedChunk := hc
    obtain ⟨p, hp, rfl⟩ := List.mem_map.mp hc2
    obtain ⟨hmem, htag⟩ := mkChroma_search_mem hp
    exact ⟨p, hmem, htag, rfl⟩
  · intro chunk hc
    have hc2 : chunk ∈ ((mkChroma scored).similarity_search_with_score query
        (effectiveK top_k) (some "midyear")).map toRetrievedChunk := hc
    obtain ⟨p, hp, rfl⟩ := List.mem_map.mp hc2
    obtain ⟨hmem, htag⟩ := mkChroma_search_mem hp
    exact ⟨p, hmem, htag, rfl⟩

/-- Witness for C4: a concrete chunk of the forecast-selected retrieval is
traced back to a forecast-tagged stored document. -/
theorem retrieve_chunks_partition_purity_witness :
    ∃ p ∈ sampleScored "q", p.1.metadata.doc_type = some "forecast" ∧
      toRetrievedChunk (sampleDoc "forecast" 3 "gamma", 1) = toRetrievedChunk p :=
  (retrieve_chunks_partition_purity sampleScored "q" (some 2)).1 _ (by decide)

/-- A sample language-model collaborator. -/
def sampleLLM : LLM :=
  { route := fun _ => { document_type := .both, reasoning := "compare" }
    synthesize := fun _ _ => "answer" }

/-- C2: the synthesizer emits exactly one citation per retrieved chunk, in
the same order — the citation list has the length of the retrieved-chunk
list and corresponding entries agree on `(document, page)` — for every model
answer text (the model functions are universally quantified), and an empty
retrieved-chunk list yields an empty citation list. -/
theorem citation_correspondence (llm : LLM) (vector_store : Chroma) (question : String) :
    ∃ ans : AnswerWithCitations,
      (run_query llm vector_store question).answer = some ans ∧
      ans.citations.length = (run_query llm vector_store question).retrieved_chunks.length ∧
      ans.citations.map (fun c => (c.document, c.page))
        = (run_query llm vector_store question).retrieved_chunks.map
            (fun c => (c.document, c.page)) ∧
      ((run_query llm vector_store question).retrieved_chunks = [] → ans.citations = []) := by
  refine ⟨{ answer := llm.synthesize
              (contextOfChunks ((run_query llm vector_store question).retrieved_chunks)) question
            citations := ((run_query llm vector_store question).retrieved_chunks).map
              citationOfChunk },
    rfl, ?_, ?_, ?_⟩
  · simp
  · rw [List.map_map]
    rfl
  · intro h
    rw [h]
    rfl

/-- Witness for C2: length correspondence at a concrete run. -/
theorem citation_correspondence_witness :
    ∃ ans : AnswerWithCitations,
      (run_query sampleLLM sampleStore "q").answer = some ans ∧
      ans.citations.length = (run_query sampleLLM sampleStore "q").retrieved_chunks.length := by
  obtain ⟨ans, h1, h2, h3, h4⟩ := citation_correspondence sampleLLM sampleStore "q"
  exact ⟨ans, h1, h2⟩

/-- C3: excerpt truncation law — the synthesizer derives its citations via
`citationOfChunk`, whose text is the chunk content verbatim when the content
length is at most 200, and the first 200 characters with the `"..."` marker
appended when longer. -/
theorem excerpt_truncation_law (llm : LLM) (state : GraphState) (chunk : RetrievedChunk) :
    (∃ ans : AnswerWithCitations, (synthesis_node llm state).answer = some (some ans) ∧
      ans.citations = state.retrieved_chunks.map citationOfChunk) ∧
    (chunk.content.length ≤ 200 → (citationOfChunk chunk).text = chunk.content) ∧
    (200 < chunk.content.length →
      (citationOfChunk chunk).text = chunk.content.take 200 ++ "...") := by
  refine ⟨⟨_, rfl, rfl⟩, ?_, ?_⟩
  · intro h
    simp [citationOfChunk, Nat.not_lt.mpr h]
  · intro h
    simp [citationOfChunk, h]

/-- A chunk whose content is longer than 200 characters. -/
def longChunk : RetrievedChunk :=
  { content := String.mk (List.replicate 300 'a'), document := "doc", page := 1, score := 0 }

set_option maxRecDepth 4000 in
/-- Witness for C3: the truncating branch at a concrete over-long chunk. -/
theorem excerpt_truncation_law_witness :
    (citationOfChunk longChunk).text = longChunk.content.take 200 ++ "..." :=
  (excerpt_truncation_law sampleLLM { question := "q" } longChunk).2.2 (by decide)

/-- C7: the pipeline is the fixed linear composition router → retrieval →
synthesis with no branching or skipping; each node's partial update names
only its own fields (the router only `document_type` and `routing_reasoning`,
retrieval only `retrieved_chunks`, synthesis only `answer`), every merge
leaves all other fields unchanged, and `question` is never modified after
the state is seeded. -/
theorem pipeline_linear_frame (llm : LLM) (vector_store : Chroma) (question : String) :
    let s0 : GraphState := { question := question }
    let u1 := router_node llm s0
    let s1 := applyUpdate s0 u1
    let u2 := create_retrieval_node vector_store s1
    let s2 := applyUpdate s1 u2
    let u3 := synthesis_node llm s2
    let s3 := applyUpdate s2 u3
    run_query llm vector_store question = s3 ∧
    (u1.question = none ∧ u1.retrieved_chunks = none ∧ u1.answer = none ∧
      (u1.document_type).isSome = true ∧ (u1.routing_reasoning).isSome = true) ∧
    (u2.question = none ∧ u2.document_type = none ∧ u2.routing_reasoning = none ∧
      u2.answer = none ∧ (u2.retrieved_chunks).isSome = true) ∧
    (u3.question = none ∧ u3.document_type = none ∧ u3.routing_reasoning = none ∧
      u3.retrieved_chunks = none ∧ (u3.answer).isSome = true) ∧
    (s1.question = question ∧ s2.question = question ∧ s3.question = question) ∧
    (s1.retrieved_chunks = s0.retrieved_chunks ∧ s1.answer = s0.answer) ∧
    (s2.document_type = s1.document_type ∧ s2.routing_reasoning = s1.routing_reasoning ∧
      s2.answer = s1.answer) ∧
    (s3.document_type = s2.document_type ∧ s3.routing_reasoning = s2.routing_reasoning ∧
      s3.retrieved_chunks = s2.retrieved_chunks) := by
  intro s0 u1 s1 u2 s2 u3 s3
  exact ⟨rfl, ⟨rfl, rfl, rfl, rfl, rfl⟩, ⟨rfl, rfl, rfl, rfl, rfl⟩, ⟨rfl, rfl, rfl, rfl, rfl⟩,
    ⟨rfl, rfl, rfl⟩, ⟨rfl, rfl⟩, ⟨rfl, rfl, rfl⟩, ⟨rfl, rfl, rfl⟩⟩

/-- C6, behaviour of the code at the failing input: `load_vector_store`
performs no availability check, so with no persisted index every search
returns the empty list and a full run still completes, producing an answer
with zero retrieved chunks and zero citations instead of surfacing a
`StoreUnavailable` failure. -/
theorem missing_index_silently_yields_empty (llm : LLM) (question : String)
    (document_type : Option DocumentType) (top_k : Option Nat) :
    retrieve_chunks (load_vector_store none) question document_type top_k = [] ∧
    (run_query llm (load_vector_store none) question).retrieved_chunks = [] ∧
    ∃ ans : AnswerWithCitations,
      (run_query llm (load_vector_store none) question).answer = some ans ∧
      ans.citations = [] := by
  have hsearch : ∀ (k : Nat) (flt : Option String),
      (load_vector_store none).similarity_search_with_score question k flt = [] := by
    intro k flt
    simp [load_vector_store, mkChroma]
  have hret : ∀ (dt : Option DocumentType) (tk : Option Nat),
      retrieve_chunks (load_vector_store none) question dt tk = [] := by
    intro dt tk
    cases dt with
    | none => simp [retrieve_chunks, hsearch]
    | some t => cases t <;> simp [retrieve_chunks, hsearch, List.insertionSort]
  have hrun : (run_query llm (load_vector_store none) question).retrieved_chunks = [] := by
    show retrieve_chunks (load_vector_store none) question
        (some (llm.route question).document_type) (some settings_top_k) = []
    exact hret _ _
  refine ⟨hret document_type top_k, hrun,
    ⟨{ answer := llm.synthesize
         (contextOfChunks ((run_query llm (load_vector_store none) question).retrieved_chunks))
         question
       citations := ((run_query llm (load_vector_store none) question).retrieved_chunks).map
         citationOfChunk },
     rfl, ?_⟩⟩
  rw [hrun]
  rfl

/-- Every document emitted by the page loop of `extract_text_from_pdf`
carries page metadata at least the starting page number. -/
theorem extractPagesFrom_page_ge (pdf_path doc_name doc_type : String) (total_pages : Nat)
    (texts : List String) :
    ∀ start : Nat, 1 ≤ start →
      ∀ d ∈ extractPagesFrom pdf_path doc_name doc_type total_pages start texts,
        ∃ n : Int, d.metadata.page = some n ∧ 1 ≤ n := by
  induction texts with
  | nil =>
    intro start _ d hd
    simp [extractPagesFrom] at hd
  | cons text rest ih =>
    intro start hstart d hd
    simp only [extractPagesFrom] at hd
    rcases List.mem_append.mp hd with h | h
    · by_cases hb : text.trim = ""
      · rw [if_pos hb] at h
        simp at h
      · rw [if_neg hb] at h
        simp at h
        subst h
        exact ⟨(start : Int), rfl, by exact_mod_cast hstart⟩
    · exact ih (start + 1) (Nat.le_succ_of_le hstart) d h

/-- Every result of any `mkChroma` search is drawn from the stored corpus. -/
theorem mkChroma_search_subset {scored : String → List (Document × ℚ)} {query : String}
    {k : Nat} {flt : Option String} {p : Document × ℚ}
    (hp : p ∈ (mkChroma scored).similarity_search_with_score query k flt) :
    p ∈ scored query := by
  have h1 : p ∈ List.insertionSort scoreLE
      ((scored query).filter (fun q => matchesFilter flt q.1)) :=
    List.mem_of_mem_take hp
  rw [List.mem_insertionSort] at h1
  exact (List.mem_filter.mp h1).1

/-- Every chunk returned by `retrieve_chunks` over an `mkChroma` store is the
conversion of some stored scored document, whatever the selection. -/
theorem retrieve_chunks_sources {scored : String → List (Document × ℚ)} {query : String}
    {document_type : Option DocumentType} {top_k : Option Nat} {chunk : RetrievedChunk}
    (hc : chunk ∈ retrieve_chunks (mkChroma scored) query document_type top_k) :
    ∃ p ∈ scored query, chunk = toRetrievedChunk p := by
  cases document_type with
  | none =>
    have hc2 : chunk ∈ ((mkChroma scored).similarity_search_with_score query
        (effectiveK top_k) none).map toRetrievedChunk := hc
    obtain ⟨p, hp, rfl⟩ := List.mem_map.mp hc2
    exact ⟨p, mkChroma_search_subset hp, rfl⟩
  | some t =>
    cases t with
    | forecast =>
      have hc2 : chunk ∈ ((mkChroma scored).similarity_search_with_score query
          (effectiveK top_k) (some "forecast")).map toRetrievedChunk := hc
      obtain ⟨p, hp, rfl⟩ := List.mem_map.mp hc2
      exact ⟨p, mkChroma_search_subset hp, rfl⟩
    | midyear =>
      have hc2 : chunk ∈ ((mkChroma scored).similarity_search_with_score query
          (effectiveK top_k) (some "midyear")).map toRetrievedChunk := hc
      obtain ⟨p, hp, rfl⟩ := List.mem_map.mp hc2
      exact ⟨p, mkChroma_search_subset hp, rfl⟩
    | both =>
      have hc2 : chunk ∈ ((List.insertionSort scoreLE
          ((mkChroma scored).similarity_search_with_score query (effectiveK top_k)
              (some "forecast")
            ++ (mkChroma scored).similarity_search_with_score query (effectiveK top_k)
                (some "midyear"))).take (effectiveK top_k * 2)).map toRetrievedChunk := hc
      obtain ⟨p, hp, rfl⟩ := List.mem_map.mp hc2
      have h1 := List.mem_of_mem_take hp
      rw [List.mem_insertionSort] at h1
      rcases List.mem_append.mp h1 with h | h
      · exact ⟨p, mkChroma_search_subset h, rfl⟩
      · exact ⟨p, mkChroma_search_subset h, rfl⟩

/-- C5: pages are 1-based — every document produced by the PDF loader carries
page metadata `≥ 1` (numbering starts at 1), and over any store whose
documents all carry page metadata `≥ 1` (as ingestion guarantees for the
store this program builds), every chunk returned by `retrieve_chunks` has
`page ≥ 1`. -/
theorem retrieved_page_ge_one (pdf_path doc_name : String) (pages : List String)
    (scored : String → List (Document × ℚ)) (query : String)
    (document_type : Option DocumentType) (top_k : Option Nat)
    (hstore : ∀ p ∈ scored query, ∃ n : Int, p.1.metadata.page = some n ∧ 1 ≤ n) :
    (∀ d ∈ extract_text_from_pdf pdf_path doc_name pages,
      ∃ n : Int, d.metadata.page = some n ∧ 1 ≤ n) ∧
    (∀ chunk ∈ retrieve_chunks (mkChroma scored) query document_type top_k,
      1 ≤ chunk.page) := by
  constructor
  · exact extractPagesFrom_page_ge pdf_path doc_name _ pages.length pages 1 (Nat.le_refl 1)
  · intro chunk hc
    obtain ⟨p, hp, rfl⟩ := retrieve_chunks_sources hc
    obtain ⟨n, hpage, hn⟩ := hstore p hp
    simpa [toRetrievedChunk, hpage] using hn

/-- Witness for C5: the store hypothesis holds for the sample corpus and the
theorem applies to a concrete retrieved chunk. -/
theorem retrieved_page_ge_one_witness :
    1 ≤ (toRetrievedChunk (sampleDoc "midyear" 2 "beta", 1)).page :=
  (retrieved_page_ge_one "outlook-2025.pdf" "outlook-2025" ["hello"] sampleScored "q"
      (some .both) (some 2)
      (by
        intro p hp
        simp only [sampleScored, List.mem_cons, List.not_mem_nil, or_false] at hp
        rcases hp with h | h | h | h <;> subst h <;> exact ⟨_, rfl, by decide⟩)).2
    _ (by decide)

/-- The metadata-assignment loop tags the `i`-th chunk (counting from
`start`) with `chunk_index = start + i` and `total_chunks_in_page = total`. -/
theorem assignChunkMetaFrom_meta (total : Nat) (cs : List Document) :
    ∀ start : Nat,
      (assignChunkMetaFrom total start cs).map
        (fun c => (c.metadata.chunk_index, c.metadata.total_chunks_in_page))
      = (List.range cs.length).map (fun i => (some (start + i), some total)) := by
  induction cs with
  | nil => intro start; simp [assignChunkMetaFrom]
  | cons c rest ih =>
    intro start
    simp only [assignChunkMetaFrom, List.map_cons, List.length_cons]
    rw [List.range_succ_eq_map, List.map_cons, ih (start + 1), List.map_map]
    congr 1
    apply List.map_congr_left
    intro i _
    simp [Function.comp_apply, Nat.succ_eq_add_one, Nat.add_assoc, Nat.add_comm, Nat.add_left_comm]

/-- With a failing semantic chunker, `chunkOnePage` falls back to the
recursive splitter for that page. -/
theorem chunkOnePage_fallback {create_documents : Document → Except String (List Document)}
    {split_documents : Document → List Document} {doc : Document} {err : String}
    (hfail : create_documents doc = .error err) :
    chunkOnePage create_documents split_documents true doc
      = assignChunkMetaFrom (split_documents doc).length 0 (split_documents doc) := by
  simp [chunkOnePage, hfail]

/-- C9: chunking degradation is local — if semantic chunking raises on one
page, that page alone is re-chunked with the recursive character splitter,
its chunks still get `chunk_index` and `total_chunks_in_page` metadata, and
the surrounding pages are chunked exactly as they otherwise would be: the
failure never aborts ingestion. -/
theorem chunking_fallback_local (create_documents : Document → Except String (List Document))
    (split_documents : Document → List Document)
    (pre post : List Document) (doc : Document) (err : String)
    (hfail : create_documents doc = .error err) :
    chunk_documents create_documents split_documents (pre ++ doc :: post) true
      = chunk_documents create_documents split_documents pre true
        ++ assignChunkMetaFrom (split_documents doc).length 0 (split_documents doc)
        ++ chunk_documents create_documents split_documents post true ∧
    (assignChunkMetaFrom (split_documents doc).length 0 (split_documents doc)).map
        (fun c => (c.metadata.chunk_index, c.metadata.total_chunks_in_page))
      = (List.range (split_documents doc).length).map
          (fun i => (some i, some (split_documents doc).length)) := by
  constructor
  · simp only [chunk_documents, List.flatMap_append, List.flatMap_cons,
      chunkOnePage_fallback hfail, List.append_assoc]
  · simpa using assignChunkMetaFrom_meta (split_documents doc).length (split_documents doc) 0

/-- A sample semantic chunker that raises exactly on the page whose text is
`"beta"`. -/
def sampleSemantic : Document → Except String (List Document) := fun d =>
  if d.page_content = "beta" then .error "boom" else .ok [d]

/-- A sample recursive splitter producing two windows per page. -/
def sampleSplit : Document → List Document := fun d => [d, d]

/-- Witness for C9: at a concrete failing page, ingestion of the surrounding
pages is unaffected and the failing page is re-chunked recursively. -/
theorem chunking_fallback_local_witness :
    chunk_documents sampleSemantic sampleSplit
        ([sampleDoc "forecast" 1 "alpha"] ++ sampleDoc "midyear" 2 "beta"
          :: [sampleDoc "forecast" 3 "gamma"]) true
      = chunk_documents sampleSemantic sampleSplit [sampleDoc "forecast" 1 "alpha"] true
        ++ assignChunkMetaFrom (sampleSplit (sampleDoc "midyear" 2 "beta")).length 0
            (sampleSplit (sampleDoc "midyear" 2 "beta"))
        ++ chunk_documents sampleSemantic sampleSplit [sampleDoc "forecast" 3 "gamma"] true :=
  (chunking_fallback_local sampleSemantic sampleSplit
      [sampleDoc "forecast" 1 "alpha"] [sampleDoc "forecast" 3 "gamma"]
      (sampleDoc "midyear" 2 "beta") "boom" rfl).1

end Rag
